import Mathlib

/-!
Verification of the Strip & Animation Registry core of
CircuitPython_RGB_LED_HTTPServer (`rgb_led_httpserver.py`).

The Python source is shallowly embedded:

* JSON / Python values become the inductive type `PyVal`.
* The global `self.context` dictionary becomes the structure `Ctx`, with one
  field per key of the dictionary literal in `RGBLedServer.__init__`, plus an
  `Option` field `mode` modelling the key `"mode"` that handlers read/write
  but that the dictionary literal never contains.
* Each HTTP route handler becomes a pure function `Ctx → ... → Ctx × Resp`,
  where `Resp` is a structured rendering of the JSON responses, and
  `Resp.crash` marks an exception escaping the handler (KeyError,
  uncaught ValueError, TypeError, constructor failures).
* External collaborators (the `board` pin table, the NeoPixel/DotStar
  constructors, the animation class constructors) are passed in as function
  parameters, so every possible outcome of an external call is covered.
* Python's builtin `int(s, 0)` / `int(s)` / `hex(n)` are modelled by
  `pyIntBase0` / `pyInt10` / `pyHex` over `String`/`List Char`.
  (`int(s, 0)`'s binary/octal prefixes, underscores and surrounding
  whitespace are not modelled; no color string in the repository uses them.)

Authentication (`require_authentication`) and the actual socket transport are
boundary concerns outside the registry core and are not modelled; the handler
functions model the post-authentication body of each route.
-/

/-- Python/JSON value, as received in decoded request bodies and stored in
pixel buffers and animation attributes. Tuples are identified with lists. -/
inductive PyVal where
  | int (n : Int)
  | str (s : String)
  | bool (b : Bool)
  | pynone
  | list (xs : List PyVal)
  | dict (kvs : List (String × PyVal))

/-- Python truthiness for the values above (`if _color:` in `init_animation`). -/
def truthy : PyVal → Bool
  | .int n => n != 0
  | .str s => s != ""
  | .bool b => b
  | .pynone => false
  | .list xs => !xs.isEmpty
  | .dict kvs => !kvs.isEmpty

/-- Error raised out of `convert_color_to_num`: either the `ValueError` coming
from `int(color_str, 0)` on an unparseable string, or the explicit
`raise ValueError("Invalid input for 'color_str'")`. -/
inductive ConvErr where
  | intParse (s : String)
  | invalidInput
deriving DecidableEq

/-! ## Hex digits, `int(s, 0)`, `int(s)` and `hex(n)` -/

/-- Lowercase hex digit character for a value `k < 16` (as produced by
Python's `hex`). -/
def hexChar (k : Nat) : Char :=
  if k < 10 then Char.ofNat (48 + k) else Char.ofNat (87 + k)

/-- Numeric value of a hex digit character (upper or lower case accepted,
as by `int(s, 16)`). -/
def hexVal (c : Char) : Option Nat :=
  if '0' ≤ c ∧ c ≤ '9' then some (c.toNat - 48)
  else if 'a' ≤ c ∧ c ≤ 'f' then some (c.toNat - 87)
  else if 'A' ≤ c ∧ c ≤ 'F' then some (c.toNat - 55)
  else none

/-- Accumulating parser over big-endian hex digit characters. -/
def parseHexAux : List Char → Nat → Option Nat
  | [], acc => some acc
  | c :: rest, acc =>
    match hexVal c with
    | some k => parseHexAux rest (acc * 16 + k)
    | none => none

/-- Accumulating parser over big-endian decimal digit characters. -/
def decAux : List Char → Nat → Option Nat
  | [], acc => some acc
  | c :: rest, acc =>
    if '0' ≤ c ∧ c ≤ '9' then decAux rest (acc * 10 + (c.toNat - 48)) else none

/-- Core of Python `int(s, 0)` on an unsigned character list: a `0x`/`0X`
prefix selects hex; a bare `0` is zero; any other leading zero is rejected
(base 0 forbids leading zeros; the unused `0b`/`0o` prefixes are not
modelled); otherwise decimal. -/
def pyIntBase0Core (cs : List Char) : Option Nat :=
  match cs with
  | [] => none
  | c :: rest =>
    if c = '0' then
      match rest with
      | [] => some 0
      | c2 :: rest2 =>
        if c2 = 'x' ∨ c2 = 'X' then
          if rest2 = [] then none else parseHexAux rest2 0
        else none
    else decAux (c :: rest) 0

/-- Python `int(s, 0)` (sign, then `pyIntBase0Core`). -/
def pyIntBase0 (s : String) : Option Int :=
  match s.data with
  | [] => none
  | c :: rest =>
    if c = '-' then (pyIntBase0Core rest).map (fun m => -(m : Int))
    else (pyIntBase0Core (c :: rest)).map (fun m => (m : Int))

/-- Python `int(s)` in base 10, as applied to pixel-index keys
(leading zeros are legal in base 10). -/
def pyInt10 (s : String) : Option Int :=
  match s.data with
  | [] => none
  | c :: rest =>
    if c = '-' then
      match rest with
      | [] => none
      | _ => (decAux rest 0).map (fun m => -(m : Int))
    else (decAux (c :: rest) 0).map (fun m => (m : Int))

/-- Big-endian lowercase hex digit characters of `n` (empty for `0`). -/
def hexDigitsOf (n : Nat) : List Char :=
  ((Nat.digits 16 n).map hexChar).reverse

/-- Python builtin `hex` on a non-negative integer: `0x` followed by
lowercase hex digits (`hex(0) = "0x0"`). This is the `to_hex` direction of
the color codec (used at the `/pixels` GET endpoint as
`hex(rgb_to_hex(...))`). -/
def pyHex (n : Nat) : String :=
  String.mk ('0' :: 'x' :: (if n = 0 then ['0'] else hexDigitsOf n))

/-- Source `rgb_to_hex`: packs a channel tuple as `(r<<16) + (g<<8) + b`. -/
def rgb_to_hex (tuple_color : Int × Int × Int) : Int :=
  tuple_color.1 * 65536 + tuple_color.2.1 * 256 + tuple_color.2.2

/-- Source `convert_color_to_num`.  Note that on a string input the source
computes `color_str.replace("#", "0x")` into a local `_cur_value` that is
never used afterwards, and then parses the original string with
`int(color_str, 0)`; the model therefore parses the original string, so a
`#`-prefixed string reaches `int` unchanged and raises `ValueError`.
Python's `isinstance(color_str, int)` also accepts `bool`, which is
returned unchanged, and list inputs are returned unmodified. -/
def convert_color_to_num : PyVal → Except ConvErr PyVal
  | .int n => .ok (.int n)
  | .bool b => .ok (.bool b)
  | .str s =>
    match pyIntBase0 s with
    | some n => .ok (.int n)
    | none => .error (.intParse s)
  | .list xs => .ok (.list xs)
  | .pynone => .error .invalidInput
  | .dict _ => .error .invalidInput

/-! ### Round-trip lemmas for `hex`/`int(·, 0)` -/

theorem hexVal_hexChar : ∀ k : Nat, k < 16 → hexVal (hexChar k) = some k := by
  decide

theorem parseHexAux_append (xs : List Char) (c : Char) (acc : Nat) :
    parseHexAux (xs ++ [c]) acc =
      match parseHexAux xs acc with
      | some m => (match hexVal c with
        | some k => some (m * 16 + k)
        | none => none)
      | none => none := by
  induction xs generalizing acc with
  | nil => simp [parseHexAux]
  | cons x xs ih =>
    simp only [List.cons_append, parseHexAux]
    cases hexVal x with
    | some k => exact ih _
    | none => rfl

theorem parseHexAux_rev_map (ds : List Nat) (hds : ∀ d ∈ ds, d < 16) (acc : Nat) :
    parseHexAux ((ds.map hexChar).reverse) acc =
      some (acc * 16 ^ ds.length + Nat.ofDigits 16 ds) := by
  induction ds generalizing acc with
  | nil => simp [parseHexAux, Nat.ofDigits]
  | cons d ds ih =>
    have hd : d < 16 := hds d (List.mem_cons_self d ds)
    have hds' : ∀ x ∈ ds, x < 16 := fun x hx => hds x (List.mem_cons_of_mem d hx)
    simp only [List.map_cons, List.reverse_cons, parseHexAux_append, ih hds' acc,
      hexVal_hexChar d hd, Nat.ofDigits_cons, List.length_cons]
    congr 1
    ring

theorem parseHexAux_hexDigitsOf (n : Nat) :
    parseHexAux (hexDigitsOf n) 0 = some n := by
  have hlt : ∀ d ∈ Nat.digits 16 n, d < 16 := fun d hd =>
    Nat.digits_lt_base (by norm_num) hd
  have := parseHexAux_rev_map (Nat.digits 16 n) hlt 0
  simpa [hexDigitsOf, Nat.ofDigits_digits] using this

theorem pyIntBase0_pyHex (n : Nat) : pyIntBase0 (pyHex n) = some (n : Int) := by
  by_cases h0 : n = 0
  · subst h0; decide
  · have hne : hexDigitsOf n ≠ [] := by
      intro h
      apply h0
      have hdig : Nat.digits 16 n = [] := by
        have := congrArg List.length h
        simpa [hexDigitsOf] using this
      have := Nat.digits_eq_nil_iff_eq_zero.mp hdig
      exact this
    simp only [pyHex, if_neg h0, pyIntBase0, String.data]
    simp [pyIntBase0Core, hne, parseHexAux_hexDigitsOf n]

/-! ## Association lists (Python `dict` with string keys) -/

/-- Dictionary lookup, first matching key. -/
def alookup {α : Type} : List (String × α) → String → Option α
  | [], _ => none
  | (k, v) :: t, k' => if k' = k then some v else alookup t k'

/-- Dictionary assignment `d[k] = v`: replace in place if the key is present,
otherwise append (Python insertion-order semantics). -/
def aset {α : Type} : List (String × α) → String → α → List (String × α)
  | [], k, v => [(k, v)]
  | (k0, v0) :: t, k, v =>
    if k0 = k then (k0, v) :: t else (k0, v0) :: aset t k v

/-- Key list, in insertion order. -/
def akeys {α : Type} (m : List (String × α)) : List String := m.map Prod.fst

/-- Dictionary deletion `del d[k]` (a Python dict holds each key at most
once, so filtering is the faithful model). -/
def aerase {α : Type} (m : List (String × α)) (k : String) : List (String × α) :=
  m.filter (fun p => !(p.1 == k))

theorem alookup_aset {α : Type} (m : List (String × α)) (k : String) (v : α)
    (k' : String) :
    alookup (aset m k v) k' = if k' = k then some v else alookup m k' := by
  induction m with
  | nil => simp [aset, alookup]
  | cons p t ih =>
    obtain ⟨k0, v0⟩ := p
    by_cases h0 : k0 = k
    · subst h0
      by_cases h' : k' = k0 <;> simp [aset, alookup, h']
    · by_cases h' : k' = k0
      · subst h'
        simp [aset, h0, alookup, Ne.symm h0]
      · simp [aset, h0, alookup, h', ih]

theorem mem_akeys_aset {α : Type} (m : List (String × α)) (k : String) (v : α)
    (a : String) : a ∈ akeys (aset m k v) ↔ a ∈ akeys m ∨ a = k := by
  induction m with
  | nil => simp [aset, akeys]
  | cons p t ih =>
    obtain ⟨k0, v0⟩ := p
    by_cases h0 : k0 = k
    · subst h0
      simp only [aset, eq_self_iff_true, if_true, akeys, List.map_cons,
        List.mem_cons]
      tauto
    · simp only [aset, if_neg h0, akeys, List.map_cons, List.mem_cons]
      simp only [akeys] at ih
      tauto

theorem nodup_akeys_aset {α : Type} (m : List (String × α)) (k : String) (v : α)
    (h : (akeys m).Nodup) : (akeys (aset m k v)).Nodup := by
  induction m with
  | nil => simp [aset, akeys]
  | cons p t ih =>
    obtain ⟨k0, v0⟩ := p
    simp only [akeys, List.map_cons, List.nodup_cons] at h
    by_cases h0 : k0 = k
    · subst h0
      simpa [aset, akeys, List.nodup_cons] using h
    · simp only [aset, if_neg h0, akeys, List.map_cons, List.nodup_cons]
      refine ⟨?_, ih h.2⟩
      intro hmem
      rcases (mem_akeys_aset t k v k0).mp (by simpa [akeys] using hmem) with h' | h'
      · exact h.1 (by simpa [akeys] using h')
      · exact h0 h'

theorem alookup_eq_of_mem_nodup {α : Type} (m : List (String × α)) (k : String)
    (v : α) (hmem : (k, v) ∈ m) (hnd : (akeys m).Nodup) : alookup m k = some v := by
  induction m with
  | nil => simp at hmem
  | cons p t ih =>
    obtain ⟨k0, v0⟩ := p
    simp only [akeys, List.map_cons, List.nodup_cons] at hnd
    rcases List.mem_cons.mp hmem with h | h
    · cases h
      simp [alookup]
    · have hk : ¬ k = k0 := by
        intro he
        subst he
        exact hnd.1 (List.mem_map.mpr ⟨(k, v), h, rfl⟩)
      simp only [alookup, if_neg hk]
      exact ih h hnd.2

theorem contains_akeys_of_alookup {α : Type} (m : List (String × α))
    (k : String) (v : α) (h : alookup m k = some v) :
    (akeys m).contains k = true := by
  induction m with
  | nil => simp [alookup] at h
  | cons p t ih =>
    obtain ⟨k0, v0⟩ := p
    by_cases hk : k = k0
    · subst hk; simp [akeys]
    · simp only [alookup, if_neg hk] at h
      simp only [akeys] at ih
      simp only [akeys, List.map_cons, List.contains_cons, ih h, Bool.or_true]

/-! ## Data model: strips, animations, the `self.context` dictionary -/

/-- A strip object (NeoPixel/DotStar handle).  Only the state touched by the
registry core is modelled: the pixel buffer and the `auto_write` flag.
(`brightness` is a float passed through unvalidated and is touched by no
claim; hardware flushes performed by `write()` are effects on the wire, not
on this state.) -/
structure Strip where
  pixels : List PyVal
  auto_write : Bool

/-- Fill every pixel with one value (`strip.fill(c)`). -/
def Strip.fill (st : Strip) (c : PyVal) : Strip :=
  { st with pixels := st.pixels.map (fun _ => c) }

/-- An animation instance: an opaque external object with named attributes
(for `hasattr`/`setattr` in `animation_setprop`) and a frame counter
advanced by `animate()`. -/
structure Anim where
  props : List (String × PyVal)
  ticks : Nat

/-- The `self.context` dictionary.  The first six fields are the keys of the
dictionary literal in `RGBLedServer.__init__`.  `mode` models the key
`"mode"`, which the literal does NOT contain: it is `none` until some
handler assigns `context["mode"]`, and reading it while `none` is a
`KeyError`. -/
structure Ctx where
  modes : List (String × String)
  current_animations : List (String × String)
  strips : List (String × Strip)
  old_auto_writes : List (String × Bool)
  animations : List (String × Anim)
  animation_strip_map : List (String × String)
  mode : Option String

/-- The freshly constructed context (all registries empty, no `"mode"` key). -/
def initialCtx : Ctx :=
  { modes := [], current_animations := [], strips := [], old_auto_writes := [],
    animations := [], animation_strip_map := [], mode := none }

/-- Structured rendering of the JSON responses produced by the handlers.
`crash` marks an exception escaping the handler (a `KeyError`, an uncaught
`ValueError`/`TypeError`, or an animation-constructor failure): the server
would answer 500 rather than a handler-built JSON body. -/
inductive Resp where
  | okSimple
  | okStrip (strip_id : String)
  | okAnim (animation_id : String)
  | errInvalidJson
  | errMissingBody
  | errMissingArgs (missing : List String)
  | errInvalidPin (pin : String)
  | errStripExists (strip_id : String)
  | errStripNotInit (strip_id : String)
  | errPixelsShape
  | errValueFrom (value : PyVal) (e : ConvErr)
  | errIndexKey (key : String)
  | errUnknownAnim (kind : String)
  | errAnimExists (animation_id : String)
  | errAnimNotInit (animation_id : String)
  | errInvalidAnim (kind : String)
  | errInvalidProp (name : String)
  | errTypeErr (msg : String)
  | errValueErr (msg : String)
  | crash (msg : String)

/-- A request body as seen after the transport layer: JSON that failed to
parse, a JSON `null`, or a decoded JSON object. -/
inductive ReqBody where
  | invalidJson
  | nullBody
  | obj (fields : List (String × PyVal))

/-- Source `_validate_request_data`: invalid JSON and `None` bodies produce
errors; otherwise every required argument missing from the body is collected
(all of them) and reported together; on success the full field map is
returned. -/
def validate_request_data (body : ReqBody) (required_args : List String) :
    Except Resp (List (String × PyVal)) :=
  match body with
  | .invalidJson => .error .errInvalidJson
  | .nullBody => .error .errMissingBody
  | .obj req_obj =>
    match required_args.filter (fun a => !((akeys req_obj).contains a)) with
    | [] => .ok req_obj
    | missing => .error (.errMissingArgs missing)

/-- Update the strip stored under a key, if present. -/
def updStrip (m : List (String × Strip)) (k : String) (f : Strip → Strip) :
    List (String × Strip) :=
  match alookup m k with
  | some st => aset m k (f st)
  | none => m

/-! ## Route handlers -/

/-- Outcome of the external `neopixel.NeoPixel(...)` constructor
(pin name, `pixel_count` value, keyword arguments); `TypeError`s it raises
are caught by the handler. -/
abbrev MkNeopixel := String → PyVal → List (String × PyVal) → Except String Strip

/-- Source `ANIMATION_CLASSES.keys()`. -/
def animationClassKeys : List String := ["blink", "colorcycle", "comet", "rainbow"]

/-- Handler for `POST /init/neopixels/`.  `hasPin` models
`hasattr(board, ...)`; `mk` models the NeoPixel constructor.  After
registration the strip is filled with `0` (and flushed).  A non-string
`id` value would make a non-string dictionary key; the registries here are
string-keyed, so that unused corner surfaces as a `crash`. -/
def init_neopixels (ctx : Ctx) (hasPin : String → Bool) (mk : MkNeopixel)
    (body : ReqBody) : Ctx × Resp :=
  match validate_request_data body ["pin", "pixel_count"] with
  | .error r => (ctx, r)
  | .ok req_data =>
    match alookup req_data "pin" with
    | none => (ctx, .crash "KeyError: pin")
    | some pinv =>
      match pinv with
      | .str pin =>
        if !(hasPin pin) then (ctx, .errInvalidPin pin)
        else
          let sid? : Option String :=
            match alookup req_data "id" with
            | none => some pin
            | some (.str s) => some s
            | some _ => none
          match sid? with
          | none => (ctx, .crash "model: non-string strip id")
          | some strip_id =>
            if (alookup ctx.strips strip_id).isSome then
              (ctx, .errStripExists strip_id)
            else
              let kw? : Option (List (String × PyVal)) :=
                match alookup req_data "kwargs" with
                | some (.dict kvs) => some kvs
                | none => some []
                | some _ => none
              match kw? with
              | none => (ctx, .errTypeErr "argument after ** must be a mapping")
              | some kw =>
                match alookup req_data "pixel_count" with
                | none => (ctx, .crash "KeyError: pixel_count")
                | some pc =>
                  match mk pin pc kw with
                  | .error e => (ctx, .errTypeErr e)
                  | .ok st =>
                    ({ ctx with
                        modes := aset ctx.modes strip_id "pixels",
                        strips := aset ctx.strips strip_id (st.fill (.int 0)) },
                      .okStrip strip_id)
      | _ => (ctx, .crash "TypeError: hasattr attribute name")

/-- Outcome of the external `adafruit_dotstar.DotStar(...)` constructor
(clock pin, data pin, `pixel_count`, kwargs); `inl` errors model
`TypeError`, `inr` errors model `ValueError` (both caught). -/
abbrev MkDotstar :=
  String → String → PyVal → List (String × PyVal) → Except (String ⊕ String) Strip

/-- Handler for `POST /init/dotstars/`.  The default id is the clock pin
name concatenated with the data pin name. -/
def init_dotstars (ctx : Ctx) (hasPin : String → Bool) (mk : MkDotstar)
    (body : ReqBody) : Ctx × Resp :=
  match validate_request_data body ["data_pin", "clock_pin", "pixel_count"] with
  | .error r => (ctx, r)
  | .ok req_data =>
    match alookup req_data "data_pin", alookup req_data "clock_pin" with
    | some (.str data_pin), some (.str clock_pin) =>
      if !(hasPin data_pin) then (ctx, .errInvalidPin data_pin)
      else if !(hasPin clock_pin) then (ctx, .errInvalidPin clock_pin)
      else
        let sid? : Option String :=
          match alookup req_data "id" with
          | none => some (clock_pin ++ data_pin)
          | some (.str s) => some s
          | some _ => none
        match sid? with
        | none => (ctx, .crash "model: non-string strip id")
        | some strip_id =>
          if (alookup ctx.strips strip_id).isSome then
            (ctx, .errStripExists strip_id)
          else
            let kw? : Option (List (String × PyVal)) :=
              match alookup req_data "kwargs" with
              | some (.dict kvs) => some kvs
              | none => some []
              | some _ => none
            match kw? with
            | none => (ctx, .errTypeErr "argument after ** must be a mapping")
            | some kw =>
              match alookup req_data "pixel_count" with
              | none => (ctx, .crash "KeyError: pixel_count")
              | some pc =>
                match mk clock_pin data_pin pc kw with
                | .error (.inl e) => (ctx, .errTypeErr e)
                | .error (.inr e) => (ctx, .errValueErr e)
                | .ok st =>
                  ({ ctx with
                      modes := aset ctx.modes strip_id "pixels",
                      strips := aset ctx.strips strip_id (st.fill (.int 0)) },
                    .okStrip strip_id)
    | _, _ => (ctx, .crash "TypeError: hasattr attribute name")

/-- Python item assignment `buf[i] = v` on a pixel buffer: non-negative
indices must be below the length, negative indices count from the end;
anything else raises `IndexError` (`none`). -/
def pySetItem (xs : List PyVal) (i : Int) (v : PyVal) : Option (List PyVal) :=
  if 0 ≤ i ∧ i < (xs.length : Int) then some (xs.set i.toNat v)
  else if -(xs.length : Int) ≤ i ∧ i < 0 then
    some (xs.set (i + (xs.length : Int)).toNat v)
  else none

/-- The per-key loop of the `/pixels` POST handler (source lines 969-993):
for each key in iteration order, the color value is converted (a
`ValueError` from the conversion or from `int(key)` is caught and reported
with the offending value), then the write is attempted (an `IndexError`
aborts the loop and is reported with the offending key).  Keys processed
before a failure remain applied. -/
def applyPixels (pix : List PyVal) :
    List (String × PyVal) → List PyVal × Option Resp
  | [] => (pix, none)
  | (key, v) :: rest =>
    match convert_color_to_num v with
    | .error e => (pix, some (.errValueFrom v e))
    | .ok c =>
      match pyInt10 key with
      | none => (pix, some (.errValueFrom v (.intParse key)))
      | some i =>
        match pySetItem pix i c with
        | none => (pix, some (.errIndexKey key))
        | some pix' => applyPixels pix' rest

/-- Handler for `POST /pixels/<strip_id>/` (the GET branch reads state and
mutates nothing).  Order of effects, exactly as in the source: strip
registration check, body validation, `pixels` shape check, optional
blank-and-flush, implicit `Animation → Pixels` transition (set the mode
FIRST, then restore `auto_write` from `old_auto_writes` — reading a
never-captured entry is a `KeyError` that escapes with the mode already
flipped), then the per-key write loop. -/
def pixels_post (ctx : Ctx) (strip_id : String) (body : ReqBody) : Ctx × Resp :=
  if (alookup ctx.strips strip_id).isSome = false then
    (ctx, .errStripNotInit strip_id)
  else
    match validate_request_data body ["pixels"] with
    | .error r => (ctx, r)
    | .ok req_data =>
      match alookup req_data "pixels" with
      | none => (ctx, .crash "KeyError: pixels")
      | some pixelsVal =>
        match pixelsVal with
        | .dict kvs =>
          let ctx1 : Ctx :=
            match alookup req_data "blank_pixels" with
            | some (.bool true) =>
              let strips0 := updStrip ctx.strips strip_id (fun st => st.fill (.int 0))
              { ctx with strips := strips0 }
            | _ => ctx
          let runLoop : Ctx → Ctx × Resp := fun c =>
            match alookup c.strips strip_id with
            | none => (c, .crash "KeyError: strips")
            | some st =>
              let res := applyPixels st.pixels kvs
              let c' := { c with
                strips := aset c.strips strip_id { st with pixels := res.1 } }
              match res.2 with
              | none => (c', .okSimple)
              | some r => (c', r)
          match alookup ctx1.modes strip_id with
          | none => (ctx1, .crash "KeyError: modes")
          | some m =>
            if m = "pixels" then runLoop ctx1
            else
              let ctx2 := { ctx1 with modes := aset ctx1.modes strip_id "pixels" }
              match alookup ctx2.old_auto_writes strip_id with
              | none => (ctx2, .crash "KeyError: old_auto_writes")
              | some w =>
                let strips2 := updStrip ctx2.strips strip_id (fun st => { st with auto_write := w })
                runLoop { ctx2 with strips := strips2 }
        | _ => (ctx, .errPixelsShape)

/-- Handler for `POST /fill/<strip_id>/`.  The source reads
`self.context["mode"]` (singular) — a key the context dictionary never
contains — so once the checks pass the handler raises `KeyError`; the
`modes[strip_id]`-based transition performed by the `/pixels` handler never
happens here.  The branches after the `mode` read model the remaining
source text faithfully (they would run only if some state carried a
`"mode"` key). -/
def fill (ctx : Ctx) (strip_id : String) (body : ReqBody) : Ctx × Resp :=
  if (alookup ctx.strips strip_id).isSome = false then
    (ctx, .errStripNotInit strip_id)
  else
    match validate_request_data body ["color"] with
    | .error r => (ctx, r)
    | .ok req_data =>
      let doFill : Ctx → Ctx × Resp := fun c =>
        match alookup req_data "color" with
        | none => (c, .crash "KeyError: color")
        | some cv =>
          match convert_color_to_num cv with
          | .error _ => (c, .crash "ValueError: color")
          | .ok cnum =>
            let stripsF := updStrip c.strips strip_id (fun st => st.fill cnum)
            ({ c with strips := stripsF }, .okSimple)
      match ctx.mode with
      | none => (ctx, .crash "KeyError: mode")
      | some m =>
        if m = "pixels" then doFill ctx
        else
          let c1 := { ctx with mode := some "pixels" }
          match alookup c1.old_auto_writes strip_id with
          | none => (c1, .crash "KeyError: old_auto_writes")
          | some w =>
            let stripsR := updStrip c1.strips strip_id (fun st => { st with auto_write := w })
            doFill { c1 with strips := stripsR }

/-- Handler for `POST /auto_write/<strip_id>/` (the GET branch mutates
nothing).  Writes the strip's `auto_write` attribute directly — the
`old_auto_writes` bookkeeping is NOT consulted or updated. -/
def auto_write (ctx : Ctx) (strip_id : String) (body : ReqBody) : Ctx × Resp :=
  if (alookup ctx.strips strip_id).isSome = false then
    (ctx, .errStripNotInit strip_id)
  else
    match validate_request_data body ["auto_write"] with
    | .error r => (ctx, r)
    | .ok req_data =>
      match alookup req_data "auto_write" with
      | none => (ctx, .crash "KeyError: auto_write")
      | some v =>
        let stripsW := updStrip ctx.strips strip_id (fun st => { st with auto_write := truthy v })
        ({ ctx with strips := stripsW }, .okSimple)

/-- Outcome of an external animation class constructor, called with the
strip object and the keyword arguments; an `error` models the constructor
raising (which the handler does NOT catch). -/
abbrev AnimCtor := Strip → List (String × PyVal) → Except String Anim

/-- Source `import_animation_contructor`: `None` for unknown keys,
otherwise the class constructor for the kind. -/
def import_animation_contructor (ctors : String → AnimCtor) (anim : String) :
    Option AnimCtor :=
  if animationClassKeys.contains anim then some (ctors anim) else none

/-- Handler for `POST /init/animation/`.  Order of effects, exactly as in
the source: validation; strip registered; kind known; animation id fresh;
`color` extracted from kwargs and converted (an unparseable color raises an
uncaught `ValueError`) and deleted from kwargs; `old_auto_writes[strip_id]`
overwritten with the strip's current `auto_write` (unconditionally, BEFORE
the constructor runs); constructor import; constructor call — a falsy
converted color (packed `0`) is dropped rather than passed; a constructor
failure escapes with the auto-write capture already done; on success the
animation and its strip binding are registered. -/
def init_animation (ctx : Ctx) (ctors : String → AnimCtor) (body : ReqBody) :
    Ctx × Resp :=
  match validate_request_data body ["strip_id", "animation_id", "animation", "kwargs"] with
  | .error r => (ctx, r)
  | .ok req_data =>
    match alookup req_data "strip_id" with
    | none => (ctx, .crash "KeyError: strip_id")
    | some sv =>
      match sv with
      | .str strip_id =>
        match alookup ctx.strips strip_id with
        | none => (ctx, .errStripNotInit strip_id)
        | some st =>
          match alookup req_data "animation" with
          | none => (ctx, .crash "KeyError: animation")
          | some av =>
            match av with
            | .str kind =>
              if !(animationClassKeys.contains kind) then
                (ctx, .errUnknownAnim kind)
              else
                match alookup req_data "animation_id" with
                | none => (ctx, .crash "KeyError: animation_id")
                | some (.str animation_id) =>
                  if (alookup ctx.animations animation_id).isSome then
                    (ctx, .errAnimExists animation_id)
                  else
                    match alookup req_data "kwargs" with
                    | none => (ctx, .crash "KeyError: kwargs")
                    | some (.dict kw) =>
                      let colorStep : Except Resp (Option PyVal × List (String × PyVal)) :=
                        match alookup kw "color" with
                        | none => .ok (none, kw)
                        | some cv =>
                          match convert_color_to_num cv with
                          | .error _ => .error (.crash "ValueError: color")
                          | .ok c => .ok (some c, aerase kw "color")
                      match colorStep with
                      | .error r => (ctx, r)
                      | .ok (colorOpt, kw') =>
                        let oaw := aset ctx.old_auto_writes strip_id st.auto_write
                        let ctx1 := { ctx with old_auto_writes := oaw }
                        match import_animation_contructor ctors kind with
                        | none => (ctx1, .errInvalidAnim kind)
                        | some ctor =>
                          let callKwargs :=
                            match colorOpt with
                            | some c => if truthy c then ("color", c) :: kw' else kw'
                            | none => kw'
                          match ctor st callKwargs with
                          | .error e => (ctx1, .crash e)
                          | .ok anim =>
                            let anims1 := aset ctx1.animations animation_id anim
                            let asm1 := aset ctx1.animation_strip_map animation_id strip_id
                            let ctx2 := { ctx1 with animations := anims1, animation_strip_map := asm1 }
                            (ctx2, .okAnim animation_id)
                    | some _ => (ctx, .crash "AttributeError: kwargs has no keys()")
                | some _ => (ctx, .crash "model: non-string animation id")
            | _ => (ctx, .errUnknownAnim "model: non-string animation kind")
      | _ => (ctx, .errStripNotInit "model: non-string strip id")

/-- Handler for `POST /start/animation/<animation_id>/`: requires the
animation to be registered, then records it as the current animation of its
bound strip and puts that strip in `animation` mode. -/
def start_animation (ctx : Ctx) (animation_id : String) : Ctx × Resp :=
  if (alookup ctx.animations animation_id).isSome = false then
    (ctx, .errAnimNotInit animation_id)
  else
    match alookup ctx.animation_strip_map animation_id with
    | none => (ctx, .crash "KeyError: animation_strip_map")
    | some strip_id =>
      ({ ctx with
          current_animations := aset ctx.current_animations strip_id animation_id,
          modes := aset ctx.modes strip_id "animation" },
        .okSimple)

/-- Handler for `POST /animation/<animation_id>/setprop`: requires the
animation to be registered and the named attribute to exist
(`hasattr`), then writes the supplied value to the attribute verbatim
(`setattr`) — the value is NOT passed through `convert_color_to_num`,
whatever the property name. -/
def animation_setprop (ctx : Ctx) (animation_id : String) (body : ReqBody) :
    Ctx × Resp :=
  if (alookup ctx.animations animation_id).isSome = false then
    (ctx, .errAnimNotInit animation_id)
  else
    match validate_request_data body ["name", "value"] with
    | .error r => (ctx, r)
    | .ok req_data =>
      match alookup req_data "name", alookup req_data "value" with
      | some nv, some vv =>
        match nv with
        | .str name =>
          match alookup ctx.animations animation_id with
          | none => (ctx, .crash "KeyError: animations")
          | some anim =>
            if (alookup anim.props name).isSome then
              let anim1 := { anim with props := aset anim.props name vv }
              ({ ctx with animations := aset ctx.animations animation_id anim1 }, .okSimple)
            else (ctx, .errInvalidProp name)
        | _ => (ctx, .crash "TypeError: hasattr attribute name")
      | _, _ => (ctx, .crash "KeyError: name / value")

/-- The loop body of `RGBLedServer.animate` over the (unchanging) key list
of `modes`: each strip in `animation` mode advances its current animation
by one frame; a missing `current_animations` or `animations` entry would be
a `KeyError`. -/
def animateGo (ctx : Ctx) : List (String × String) → Except String Ctx
  | [] => .ok ctx
  | (strip_id, m) :: rest =>
    if m = "animation" then
      match alookup ctx.current_animations strip_id with
      | none => .error "KeyError: current_animations"
      | some aid =>
        match alookup ctx.animations aid with
        | none => .error "KeyError: animations"
        | some anim =>
          let anims2 := aset ctx.animations aid { anim with ticks := anim.ticks + 1 }
          animateGo { ctx with animations := anims2 } rest
    else animateGo ctx rest

/-- Source `RGBLedServer.animate`: one scheduler tick. -/
def animate (ctx : Ctx) : Except String Ctx := animateGo ctx ctx.modes

/-! ## Reachable states and the animation-mode invariant (for the scheduler) -/

/-- The mode/current-animation/registry consistency invariant: a strip in
`animation` mode always has a current animation recorded, and that
animation id is registered. -/
def InvMain (c : Ctx) : Prop :=
  ∀ s, alookup c.modes s = some "animation" →
    ∃ a, alookup c.current_animations s = some a ∧
      (alookup c.animations a).isSome = true

/-- Full invariant carried through the induction: key uniqueness of the
`modes` dictionary (a real `dict` cannot repeat keys) plus `InvMain`. -/
def CtxInv (c : Ctx) : Prop := (akeys c.modes).Nodup ∧ InvMain c

theorem isSome_alookup_aset_of {α : Type} (m : List (String × α)) (k : String)
    (v : α) (a : String) (h : (alookup m a).isSome = true) :
    (alookup (aset m k v) a).isSome = true := by
  rw [alookup_aset]
  by_cases ha : a = k <;> simp [ha, h]

theorem invMain_pixels (c : Ctx) (sid : String) (h : InvMain c) (s : String)
    (hs : alookup (aset c.modes sid "pixels") s = some "animation") :
    ∃ a, alookup c.current_animations s = some a ∧
      (alookup c.animations a).isSome = true := by
  rw [alookup_aset] at hs
  by_cases hss : s = sid
  · simp [hss] at hs
  · rw [if_neg hss] at hs
    exact h s hs

theorem invMain_start (c : Ctx) (sid aid : String)
    (haid : (alookup c.animations aid).isSome = true) (h : InvMain c)
    (s : String)
    (hs : alookup (aset c.modes sid "animation") s = some "animation") :
    ∃ a, alookup (aset c.current_animations sid aid) s = some a ∧
      (alookup c.animations a).isSome = true := by
  rw [alookup_aset] at hs
  by_cases hss : s = sid
  · exact ⟨aid, by rw [alookup_aset, if_pos hss], haid⟩
  · rw [if_neg hss] at hs
    obtain ⟨a, h1, h2⟩ := h s hs
    exact ⟨a, by rw [alookup_aset, if_neg hss]; exact h1, h2⟩

theorem invMain_grow {c c' : Ctx}
    (hm : c'.modes = c.modes)
    (hcur : c'.current_animations = c.current_animations)
    (hgrow : ∀ a, (alookup c.animations a).isSome = true →
      (alookup c'.animations a).isSome = true)
    (h : InvMain c) : InvMain c' := by
  intro s hs
  rw [hm] at hs
  obtain ⟨a, h1, h2⟩ := h s hs
  exact ⟨a, by rw [hcur]; exact h1, hgrow a h2⟩

theorem inv_init_neopixels (c : Ctx) (hasPin : String → Bool) (mk : MkNeopixel)
    (body : ReqBody) (h : CtxInv c) : CtxInv (init_neopixels c hasPin mk body).1 := by
  unfold init_neopixels
  dsimp only
  repeat' split
  all_goals
    first
      | exact h
      | exact ⟨nodup_akeys_aset _ _ _ h.1, fun s hs => invMain_pixels _ _ h.2 s hs⟩

theorem inv_init_dotstars (c : Ctx) (hasPin : String → Bool) (mk : MkDotstar)
    (body : ReqBody) (h : CtxInv c) : CtxInv (init_dotstars c hasPin mk body).1 := by
  unfold init_dotstars
  dsimp only
  repeat' split
  all_goals
    first
      | exact h
      | exact ⟨nodup_akeys_aset _ _ _ h.1, fun s hs => invMain_pixels _ _ h.2 s hs⟩

theorem inv_pixels_post (c : Ctx) (strip_id : String) (body : ReqBody)
    (h : CtxInv c) : CtxInv (pixels_post c strip_id body).1 := by
  unfold pixels_post
  dsimp only
  repeat' split
  all_goals
    first
      | exact h
      | exact ⟨nodup_akeys_aset _ _ _ h.1, fun s hs => invMain_pixels _ _ h.2 s hs⟩

theorem inv_fill (c : Ctx) (strip_id : String) (body : ReqBody)
    (h : CtxInv c) : CtxInv (fill c strip_id body).1 := by
  unfold fill
  dsimp only
  repeat' split
  all_goals exact h

theorem inv_auto_write (c : Ctx) (strip_id : String) (body : ReqBody)
    (h : CtxInv c) : CtxInv (auto_write c strip_id body).1 := by
  unfold auto_write
  dsimp only
  repeat' split
  all_goals exact h

theorem inv_init_animation (c : Ctx) (ctors : String → AnimCtor)
    (body : ReqBody) (h : CtxInv c) : CtxInv (init_animation c ctors body).1 := by
  unfold init_animation
  dsimp only
  repeat' split
  all_goals
    first
      | exact h
      | (refine ⟨h.1, fun s hs => ?_⟩
         obtain ⟨a, h1, h2⟩ := h.2 s hs
         exact ⟨a, h1, isSome_alookup_aset_of _ _ _ _ h2⟩)

theorem inv_start_animation (c : Ctx) (animation_id : String)
    (h : CtxInv c) : CtxInv (start_animation c animation_id).1 := by
  unfold start_animation
  by_cases hreg : (alookup c.animations animation_id).isSome = false
  · rw [if_pos hreg]
    exact h
  · rw [if_neg hreg]
    have haid : (alookup c.animations animation_id).isSome = true := by
      cases hb : (alookup c.animations animation_id).isSome with
      | false => exact absurd hb hreg
      | true => rfl
    cases hmap : alookup c.animation_strip_map animation_id with
    | none =>
      simp only [hmap]
      exact h
    | some sid =>
      simp only [hmap]
      exact ⟨nodup_akeys_aset _ _ _ h.1,
        fun s hs => invMain_start _ _ _ haid h.2 s hs⟩

theorem inv_animation_setprop (c : Ctx) (animation_id : String) (body : ReqBody)
    (h : CtxInv c) : CtxInv (animation_setprop c animation_id body).1 := by
  unfold animation_setprop
  dsimp only
  repeat' split
  all_goals
    first
      | exact h
      | (refine ⟨h.1, fun s hs => ?_⟩
         obtain ⟨a, h1, h2⟩ := h.2 s hs
         exact ⟨a, h1, isSome_alookup_aset_of _ _ _ _ h2⟩)

theorem animateGo_fields (l : List (String × String)) (c c' : Ctx)
    (hok : animateGo c l = .ok c') :
    c'.modes = c.modes ∧ c'.current_animations = c.current_animations ∧
      ∀ a, (alookup c.animations a).isSome = true →
        (alookup c'.animations a).isSome = true := by
  induction l generalizing c with
  | nil =>
    obtain rfl : c = c' := by simpa [animateGo] using hok
    exact ⟨rfl, rfl, fun a ha => ha⟩
  | cons p rest ih =>
    obtain ⟨sid, m⟩ := p
    by_cases hm : m = "animation"
    · rw [animateGo, if_pos hm] at hok
      cases hcur : alookup c.current_animations sid with
      | none =>
        simp only [hcur] at hok
        exact Except.noConfusion hok
      | some aid =>
        simp only [hcur] at hok
        cases han : alookup c.animations aid with
        | none =>
          simp only [han] at hok
          exact Except.noConfusion hok
        | some anim =>
          simp only [han] at hok
          obtain ⟨h1, h2, h3⟩ := ih _ hok
          refine ⟨h1, h2, fun a ha => h3 a ?_⟩
          exact isSome_alookup_aset_of _ _ _ _ ha
    · rw [animateGo, if_neg hm] at hok
      exact ih _ hok

theorem animateGo_ok (c : Ctx) (l : List (String × String))
    (hl : ∀ p ∈ l, p.2 = "animation" →
      ∃ a, alookup c.current_animations p.1 = some a ∧
        (alookup c.animations a).isSome = true) :
    ∃ c', animateGo c l = .ok c' := by
  induction l generalizing c with
  | nil => exact ⟨c, rfl⟩
  | cons p rest ih =>
    obtain ⟨sid, m⟩ := p
    by_cases hm : m = "animation"
    · obtain ⟨a, h1, h2⟩ := hl (sid, m) (List.mem_cons_self _ _) hm
      obtain ⟨anim, ha⟩ := Option.isSome_iff_exists.mp h2
      rw [animateGo, if_pos hm]
      simp only [h1, ha]
      apply ih
      intro q hq hq2
      obtain ⟨b, hb1, hb2⟩ := hl q (List.mem_cons_of_mem _ hq) hq2
      exact ⟨b, hb1, isSome_alookup_aset_of _ _ _ _ hb2⟩
    · rw [animateGo, if_neg hm]
      apply ih
      intro q hq hq2
      exact hl q (List.mem_cons_of_mem _ hq) hq2

theorem inv_animate (c c' : Ctx) (hok : animate c = .ok c') (h : CtxInv c) :
    CtxInv c' := by
  obtain ⟨h1, h2, h3⟩ := animateGo_fields c.modes c c' hok
  refine ⟨by rw [h1]; exact h.1, invMain_grow h1 h2 h3 h.2⟩

/-- One dispatcher operation (or one scheduler tick), with every possible
request body and every possible outcome of the external collaborators.
Operations that mutate none of the registries (`/write`, `/brightness`,
the GET branches) leave the state unchanged and need no case. -/
inductive Step : Ctx → Ctx → Prop
  | neopixels (c : Ctx) (hasPin : String → Bool) (mk : MkNeopixel)
      (body : ReqBody) : Step c (init_neopixels c hasPin mk body).1
  | dotstars (c : Ctx) (hasPin : String → Bool) (mk : MkDotstar)
      (body : ReqBody) : Step c (init_dotstars c hasPin mk body).1
  | pixelsPost (c : Ctx) (strip_id : String) (body : ReqBody) :
      Step c (pixels_post c strip_id body).1
  | fillPost (c : Ctx) (strip_id : String) (body : ReqBody) :
      Step c (fill c strip_id body).1
  | autoWritePost (c : Ctx) (strip_id : String) (body : ReqBody) :
      Step c (auto_write c strip_id body).1
  | initAnim (c : Ctx) (ctors : String → AnimCtor) (body : ReqBody) :
      Step c (init_animation c ctors body).1
  | startAnim (c : Ctx) (animation_id : String) :
      Step c (start_animation c animation_id).1
  | setProp (c : Ctx) (animation_id : String) (body : ReqBody) :
      Step c (animation_setprop c animation_id body).1
  | tick (c c' : Ctx) : animate c = .ok c' → Step c c'

/-- States reachable from the freshly constructed server context. -/
inductive Reachable : Ctx → Prop
  | init : Reachable initialCtx
  | step {c c' : Ctx} : Reachable c → Step c c' → Reachable c'

theorem inv_step {c c' : Ctx} (hs : Step c c') (h : CtxInv c) : CtxInv c' := by
  cases hs with
  | neopixels hasPin mk body => exact inv_init_neopixels _ hasPin mk body h
  | dotstars hasPin mk body => exact inv_init_dotstars _ hasPin mk body h
  | pixelsPost sid body => exact inv_pixels_post _ sid body h
  | fillPost sid body => exact inv_fill _ sid body h
  | autoWritePost sid body => exact inv_auto_write _ sid body h
  | initAnim ctors body => exact inv_init_animation _ ctors body h
  | startAnim aid => exact inv_start_animation _ aid h
  | setProp aid body => exact inv_animation_setprop _ aid body h
  | tick c2 hok => exact inv_animate _ _ hok h

theorem reachable_inv {c : Ctx} (h : Reachable c) : CtxInv c := by
  induction h with
  | init => exact ⟨List.nodup_nil, fun s hs => by simp [initialCtx, alookup] at hs⟩
  | step _ hs ih => exact inv_step hs ih

/-! ## Claim theorems -/

/-- C4: `convert_color_to_num` is claimed to rewrite a `#` prefix to `0x`
and parse `#`-strings without failing.  In the source the rewritten string
is bound to an unused local (`_cur_value`) and the ORIGINAL string is
passed to `int(color_str, 0)`, so `"#ff00ff"` raises `ValueError` — while
the equivalent `"0xff00ff"` parses to `0xff00ff`.  This contradicts the
function's own docstring ("hex color with 0x or # prefix"), so the code,
not the claim, is wrong. -/
theorem c4_hash_string_parse_fails :
    convert_color_to_num (.str "#ff00ff") = .error (.intParse "#ff00ff") ∧
    convert_color_to_num (.str "0xff00ff") = .ok (.int 16711935) :=
  ⟨rfl, rfl⟩

/-- C7: `_validate_request_data` fails with the invalid-JSON error on an
unparseable body, with the missing-body error on a `null` body, succeeds
with the full untouched field map when every required argument is present,
and otherwise reports exactly the required arguments absent from the body —
all of them together. -/
theorem c7_validate_request_data_spec (required_args : List String) :
    (validate_request_data .invalidJson required_args = .error .errInvalidJson) ∧
    (validate_request_data .nullBody required_args = .error .errMissingBody) ∧
    (∀ fields, (∀ a ∈ required_args, a ∈ akeys fields) →
      validate_request_data (.obj fields) required_args = .ok fields) ∧
    (∀ fields missing,
      validate_request_data (.obj fields) required_args =
        .error (.errMissingArgs missing) →
      ∀ a, a ∈ missing ↔ (a ∈ required_args ∧ a ∉ akeys fields)) := by
  refine ⟨rfl, rfl, ?_, ?_⟩
  · intro fields hall
    have hfil : required_args.filter (fun a => !((akeys fields).contains a)) = [] := by
      rw [List.filter_eq_nil_iff]
      intro a ha
      have hc : (akeys fields).contains a = true := List.elem_iff.mpr (hall a ha)
      simp only [hc, Bool.not_true, not_false_eq_true, Bool.false_eq_true]
    dsimp only [validate_request_data]
    rw [hfil]
  · intro fields missing heq a
    dsimp only [validate_request_data] at heq
    cases hfil : required_args.filter (fun x => !((akeys fields).contains x)) with
    | nil =>
      rw [hfil] at heq
      exact Except.noConfusion heq
    | cons y ys =>
      rw [hfil] at heq
      have hmiss : missing = y :: ys := by
        injection heq with h1
        injection h1 with h2
        exact h2.symm
      rw [hmiss, ← hfil, List.mem_filter]
      simp [List.elem_iff]

/-- C7 witness: at a concrete body with field `pin` only, requiring
`pin` succeeds with the untouched map, and requiring `pin, pixel_count`
reports exactly `pixel_count` missing. -/
theorem c7_validate_request_data_witness :
    (validate_request_data (.obj [("pin", PyVal.str "D6")]) ["pin"] =
      .ok [("pin", PyVal.str "D6")]) ∧
    ("pixel_count" ∈ ["pixel_count"] ↔
      ("pixel_count" ∈ ["pin", "pixel_count"] ∧
        "pixel_count" ∉ akeys [("pin", PyVal.str "D6")])) :=
  ⟨(c7_validate_request_data_spec ["pin"]).2.2.1 [("pin", PyVal.str "D6")]
      (by decide),
    (c7_validate_request_data_spec ["pin", "pixel_count"]).2.2.2
      [("pin", PyVal.str "D6")] ["pixel_count"] rfl "pixel_count"⟩

/-- C8: for a non-negative integer input or a `0x`-prefixed hex string
input, `parse(to_hex(parse(x))) = parse(x)`: the parsed value is a
non-negative packed color, and re-parsing the `hex()` rendering of that
value yields it back. -/
theorem c8_parse_to_hex_round_trip (x : PyVal) (v : Int)
    (hx : (∃ n : Nat, x = PyVal.int (n : Int)) ∨
      (∃ s rest, x = PyVal.str s ∧ s.data = '0' :: 'x' :: rest ∧ rest ≠ []))
    (hp : convert_color_to_num x = .ok (.int v)) :
    0 ≤ v ∧ convert_color_to_num (.str (pyHex v.toNat)) = .ok (.int v) := by
  rcases hx with ⟨n, rfl⟩ | ⟨s, rest, rfl, hdata, hne⟩
  · have hv : (n : Int) = v := by
      simpa [convert_color_to_num] using hp
    subst hv
    refine ⟨Int.natCast_nonneg n, ?_⟩
    simp [convert_color_to_num, pyIntBase0_pyHex]
  · have hbase : pyIntBase0 s = (parseHexAux rest 0).map (fun m => (m : Int)) := by
      simp [pyIntBase0, hdata, pyIntBase0Core, hne]
    cases hph : parseHexAux rest 0 with
    | none =>
      simp [convert_color_to_num, hbase, hph] at hp
    | some n =>
      have hv : (n : Int) = v := by
        simpa [convert_color_to_num, hbase, hph] using hp
      subst hv
      refine ⟨Int.natCast_nonneg n, ?_⟩
      simp [convert_color_to_num, pyIntBase0_pyHex]

/-- C8 witness: the round trip at the concrete input `"0xff00ff"`. -/
theorem c8_parse_to_hex_round_trip_witness :
    0 ≤ (16711935 : Int) ∧
    convert_color_to_num (.str (pyHex (16711935 : Int).toNat)) =
      .ok (.int 16711935) :=
  c8_parse_to_hex_round_trip (.str "0xff00ff") 16711935
    (Or.inr ⟨"0xff00ff", ['f', 'f', '0', '0', 'f', 'f'], rfl, rfl, by decide⟩)
    rfl

/-! ### C1: SavedAutoWrite capture across repeated `init animation` calls -/

/-- NeoPixel constructor outcome used in the C1 scenario: a 3-pixel strip
with `auto_write = true`. -/
def c1mk : MkNeopixel :=
  fun _ _ _ => .ok { pixels := [.int 0, .int 0, .int 0], auto_write := true }

/-- Animation constructors for the C1 scenario (always succeed). -/
def c1ctors : String → AnimCtor := fun _ => fun _ _ => .ok { props := [], ticks := 0 }

/-- C1 scenario, step 0: register strip `D6` (auto_write = true). -/
def c1s0 : Ctx :=
  (init_neopixels initialCtx (fun _ => true) c1mk
    (.obj [("pin", .str "D6"), ("pixel_count", .int 3)])).1

/-- C1 scenario, step 1: first `init animation` (`a1`) on `D6`. -/
def c1s1 : Ctx :=
  (init_animation c1s0 c1ctors
    (.obj [("strip_id", .str "D6"), ("animation_id", .str "a1"),
      ("animation", .str "comet"), ("kwargs", .dict [])])).1

/-- C1 scenario, step 2: `set auto_write(false)` on `D6`. -/
def c1s2 : Ctx := (auto_write c1s1 "D6" (.obj [("auto_write", .bool false)])).1

/-- C1 scenario, step 3: second `init animation` (`a2`) on `D6`. -/
def c1s3 : Ctx :=
  (init_animation c1s2 c1ctors
    (.obj [("strip_id", .str "D6"), ("animation_id", .str "a2"),
      ("animation", .str "comet"), ("kwargs", .dict [])])).1

/-- C1 scenario, step 4: `start animation("a2")` — `D6` enters Animation mode. -/
def c1s4 : Ctx := (start_animation c1s3 "a2").1

/-- C1 scenario, step 5: a pixel write on `D6` forces the strip back to
Pixels mode and restores `auto_write` from `old_auto_writes`. -/
def c1s5 : Ctx :=
  (pixels_post c1s4 "D6" (.obj [("pixels", .dict [("0", .str "0xff0000")])])).1

/-- C1 counterexample: before the FIRST `init animation`, `auto_write` was
`true`; the second `init animation` call RE-captured (SavedAutoWrite became
`false`, the value set in between); the pixel write then restored `false`,
not the pre-first-init value `true`.  So later writes restore the value
before the MOST RECENT init, and subsequent init calls do perform another
capture — the claim is false. -/
theorem c1_counterexample_recapture :
    ((alookup c1s0.strips "D6").map Strip.auto_write = some true) ∧
    (alookup c1s1.old_auto_writes "D6" = some true) ∧
    (alookup c1s3.old_auto_writes "D6" = some false) ∧
    ((alookup c1s5.strips "D6").map Strip.auto_write = some false) :=
  ⟨rfl, rfl, rfl, rfl⟩

/-- C1 amended: EVERY successful `init animation` call overwrites
SavedAutoWrite for the strip with the strip's current `auto_write` (no
"only if not already captured" guard exists), so a later forced
`Animation → Pixels` transition restores the value held immediately before
the most recent `init animation` call.  The conclusion exhibits the whole
resulting state: `old_auto_writes[strip]` is overwritten unconditionally —
no hypothesis constrains any previously captured value. -/
theorem c1_amended_every_init_recaptures (ctx : Ctx)
    (ctors : String → AnimCtor) (req kw : List (String × PyVal))
    (sid kind aid : String) (st : Strip) (anim : Anim)
    (hsid : alookup req "strip_id" = some (.str sid))
    (hst : alookup ctx.strips sid = some st)
    (hkindf : alookup req "animation" = some (.str kind))
    (hkindok : animationClassKeys.contains kind = true)
    (haidf : alookup req "animation_id" = some (.str aid))
    (hfresh : alookup ctx.animations aid = none)
    (hkw : alookup req "kwargs" = some (.dict kw))
    (hnocolor : alookup kw "color" = none)
    (hctor : ctors kind st kw = .ok anim) :
    init_animation ctx ctors (.obj req) =
      ({ ctx with
          old_auto_writes := aset ctx.old_auto_writes sid st.auto_write,
          animations := aset ctx.animations aid anim,
          animation_strip_map := aset ctx.animation_strip_map aid sid },
        .okAnim aid) := by
  have hv : validate_request_data (.obj req)
      ["strip_id", "animation_id", "animation", "kwargs"] = .ok req := by
    have h1 := List.elem_iff.mp (contains_akeys_of_alookup _ _ _ hsid)
    have h2 := List.elem_iff.mp (contains_akeys_of_alookup _ _ _ haidf)
    have h3 := List.elem_iff.mp (contains_akeys_of_alookup _ _ _ hkindf)
    have h4 := List.elem_iff.mp (contains_akeys_of_alookup _ _ _ hkw)
    dsimp only [validate_request_data]
    simp [List.filter_cons, h1, h2, h3, h4]
  unfold init_animation
  simp only [hv, hsid, hst, hkindf, hkindok, Bool.not_true, Bool.false_eq_true,
    if_false, haidf, hfresh, Option.isSome_none, hkw, hnocolor,
    import_animation_contructor, if_true, hctor]

/-- C1 amended witness: a concrete strip whose `auto_write` is `false` and
whose SavedAutoWrite already holds `true` from an earlier capture: the new
`init animation` call overwrites the entry with `false`. -/
theorem c1_amended_every_init_recaptures_witness :
    init_animation
      { modes := [("D6", "pixels")], current_animations := [],
        strips := [("D6", { pixels := [.int 0], auto_write := false })],
        old_auto_writes := [("D6", true)], animations := [],
        animation_strip_map := [], mode := none }
      c1ctors
      (.obj [("strip_id", .str "D6"), ("animation_id", .str "a9"),
        ("animation", .str "blink"), ("kwargs", .dict [])]) =
      ({ modes := [("D6", "pixels")], current_animations := [],
          strips := [("D6", { pixels := [.int 0], auto_write := false })],
          old_auto_writes := [("D6", false)],
          animations := [("a9", { props := [], ticks := 0 })],
          animation_strip_map := [("a9", "D6")], mode := none },
        .okAnim "a9") :=
  c1_amended_every_init_recaptures _ c1ctors _ [] "D6" "blink" "a9"
    { pixels := [.int 0], auto_write := false } { props := [], ticks := 0 }
    rfl rfl rfl rfl rfl rfl rfl rfl rfl

/-! ### C2: the `/fill` handler and the `Animation → Pixels` transition -/

/-- A `D6` strip in `Animation` mode with SavedAutoWrite `true` captured
and `auto_write` currently `false` (as an animation would leave it). -/
def c2ctx : Ctx :=
  { modes := [("D6", "animation")], current_animations := [("D6", "a1")],
    strips := [("D6", { pixels := [.int 0, .int 0], auto_write := false })],
    old_auto_writes := [("D6", true)],
    animations := [("a1", { props := [], ticks := 0 })],
    animation_strip_map := [("a1", "D6")], mode := none }

/-- C2: `fill` on a registered strip in Animation mode does NOT switch the
strip to Pixels mode nor restore `auto_write`: the handler reads
`self.context["mode"]` — a key the context dictionary never contains — and
raises `KeyError`, leaving the state unchanged (mode still `animation`,
`auto_write` still `false` instead of the saved `true`).  The spec (and the
parallel, migrated code in the `/pixels` handler) shows the per-strip
transition is the intent; the un-migrated `fill` code is the slip. -/
theorem c2_fill_mode_keyerror :
    fill c2ctx "D6" (.obj [("color", .str "0x000000")]) =
      (c2ctx, .crash "KeyError: mode") ∧
    alookup c2ctx.modes "D6" = some "animation" ∧
    (alookup c2ctx.strips "D6").map Strip.auto_write = some false :=
  ⟨rfl, rfl, rfl⟩

/-! ### C3: `set animation property` and color decoding -/

/-- A context with one registered animation `a1` exposing a `colors`
attribute. -/
def c3ctx : Ctx :=
  { modes := [("D6", "pixels")], current_animations := [],
    strips := [("D6", { pixels := [.int 0], auto_write := true })],
    old_auto_writes := [],
    animations := [("a1", { props := [("colors", .list [.int 5])], ticks := 0 })],
    animation_strip_map := [("a1", "D6")], mode := none }

/-- C3 counterexample: setting the `colors` property to a list holding the
hex string `"0x010203"` stores the RAW string list — the handler performs a
bare `setattr` and never calls `convert_color_to_num`, although the codec
would decode that element to the packed integer `66051`, a different
value.  The claimed per-element ColorCodec decoding does not happen. -/
theorem c3_counterexample_raw_colors :
    ((alookup (animation_setprop c3ctx "a1"
        (.obj [("name", .str "colors"),
          ("value", .list [.str "0x010203"])])).1.animations "a1").map
      Anim.props = some [("colors", .list [.str "0x010203"])]) ∧
    convert_color_to_num (.str "0x010203") = .ok (.int 66051) ∧
    PyVal.str "0x010203" ≠ PyVal.int 66051 :=
  ⟨rfl, rfl, fun h => PyVal.noConfusion h⟩

/-- C3 amended: `set animation property` writes the supplied value to the
named attribute verbatim for EVERY property name — names containing
`color` or `colors` included; no ColorCodec decoding is applied to the
value or its list elements. -/
theorem c3_amended_setprop_writes_raw (ctx : Ctx) (aid : String)
    (req : List (String × PyVal)) (name : String) (value : PyVal) (anim : Anim)
    (ha : alookup ctx.animations aid = some anim)
    (hn : alookup req "name" = some (.str name))
    (hv : alookup req "value" = some value)
    (hprop : (alookup anim.props name).isSome = true) :
    animation_setprop ctx aid (.obj req) =
      ({ ctx with animations := aset ctx.animations aid { anim with props := aset anim.props name value } },
        .okSimple) := by
  have hval : validate_request_data (.obj req) ["name", "value"] = .ok req := by
    have h1 := List.elem_iff.mp (contains_akeys_of_alookup _ _ _ hn)
    have h2 := List.elem_iff.mp (contains_akeys_of_alookup _ _ _ hv)
    dsimp only [validate_request_data]
    simp [List.filter_cons, h1, h2]
  unfold animation_setprop
  simp only [ha, Option.isSome_some, Bool.true_eq_false, if_false, hval, hn, hv,
    hprop, if_true]

/-- C3 amended witness: the amended statement at the concrete `colors`
write of `c3_counterexample_raw_colors`-style input. -/
theorem c3_amended_setprop_writes_raw_witness :
    animation_setprop c3ctx "a1"
      (.obj [("name", .str "colors"), ("value", .list [.str "0x010203"])]) =
      ({ c3ctx with animations := aset c3ctx.animations "a1" { props := aset [("colors", PyVal.list [.int 5])] "colors" (.list [.str "0x010203"]), ticks := 0 } },
        .okSimple) :=
  c3_amended_setprop_writes_raw c3ctx "a1" _ "colors" (.list [.str "0x010203"])
    { props := [("colors", .list [.int 5])], ticks := 0 } rfl rfl rfl rfl

/-! ### C5: registry state after a failed `init animation` -/

/-- C5 amended: when `init animation` passes all its precondition checks
and then the animation constructor rejects its arguments, the exception
escapes; `animations` and `animation_strip_map` are indeed left unchanged —
but `old_auto_writes[strip_id]` has ALREADY been overwritten with the
strip's current `auto_write` (the capture at source line 1176 precedes the
constructor call, which is not wrapped in any try/except). -/
theorem c5_amended_ctor_failure_captures (ctx : Ctx)
    (ctors : String → AnimCtor) (req kw : List (String × PyVal))
    (sid kind aid : String) (st : Strip) (emsg : String)
    (hsid : alookup req "strip_id" = some (.str sid))
    (hst : alookup ctx.strips sid = some st)
    (hkindf : alookup req "animation" = some (.str kind))
    (hkindok : animationClassKeys.contains kind = true)
    (haidf : alookup req "animation_id" = some (.str aid))
    (hfresh : alookup ctx.animations aid = none)
    (hkw : alookup req "kwargs" = some (.dict kw))
    (hnocolor : alookup kw "color" = none)
    (hctor : ctors kind st kw = .error emsg) :
    init_animation ctx ctors (.obj req) =
      ({ ctx with old_auto_writes := aset ctx.old_auto_writes sid st.auto_write },
        .crash emsg) := by
  have hv : validate_request_data (.obj req)
      ["strip_id", "animation_id", "animation", "kwargs"] = .ok req := by
    have h1 := List.elem_iff.mp (contains_akeys_of_alookup _ _ _ hsid)
    have h2 := List.elem_iff.mp (contains_akeys_of_alookup _ _ _ haidf)
    have h3 := List.elem_iff.mp (contains_akeys_of_alookup _ _ _ hkindf)
    have h4 := List.elem_iff.mp (contains_akeys_of_alookup _ _ _ hkw)
    dsimp only [validate_request_data]
    simp [List.filter_cons, h1, h2, h3, h4]
  unfold init_animation
  simp only [hv, hsid, hst, hkindf, hkindok, Bool.not_true, Bool.false_eq_true,
    if_false, haidf, hfresh, Option.isSome_none, hkw, hnocolor,
    import_animation_contructor, if_true, hctor]

/-- Constructors for the C5 scenario: every animation constructor rejects
its arguments. -/
def c5ctors : String → AnimCtor :=
  fun _ => fun _ _ => .error "TypeError: unexpected keyword argument"

/-- A context with a registered `D6` strip (`auto_write = true`) and NO
SavedAutoWrite entry yet. -/
def c5ctx : Ctx :=
  { modes := [("D6", "pixels")], current_animations := [],
    strips := [("D6", { pixels := [.int 0], auto_write := true })],
    old_auto_writes := [], animations := [], animation_strip_map := [],
    mode := none }

/-- The C5 request body (passes every precondition check). -/
def c5body : ReqBody :=
  .obj [("strip_id", .str "D6"), ("animation_id", .str "a1"),
    ("animation", .str "comet"), ("kwargs", .dict [("speed", .int 1)])]

/-- C5 counterexample: the constructor rejects its arguments AFTER the
precondition checks; the call fails (the exception escapes), yet the
SavedAutoWrite store is NOT left as it was: `old_auto_writes["D6"]` goes
from absent to `some true`.  The registries are left partially mutated on
failure, refuting the claim. -/
theorem c5_counterexample_failed_init_mutates :
    (alookup c5ctx.old_auto_writes "D6" = none) ∧
    ((init_animation c5ctx c5ctors c5body).2 =
      .crash "TypeError: unexpected keyword argument") ∧
    (alookup (init_animation c5ctx c5ctors c5body).1.old_auto_writes "D6" =
      some true) :=
  ⟨rfl, rfl, rfl⟩

/-- C5 amended witness: the amended statement instantiated at the concrete
C5 scenario. -/
theorem c5_amended_ctor_failure_captures_witness :
    init_animation c5ctx c5ctors c5body =
      ({ c5ctx with old_auto_writes := aset c5ctx.old_auto_writes "D6" true },
        .crash "TypeError: unexpected keyword argument") :=
  c5_amended_ctor_failure_captures c5ctx c5ctors _ [("speed", .int 1)]
    "D6" "comet" "a1" { pixels := [.int 0], auto_write := true }
    "TypeError: unexpected keyword argument" rfl rfl rfl rfl rfl rfl rfl rfl rfl

/-! ### C6: fail-fast-partial semantics of the `/pixels` write loop -/

theorem applyPixels_append (pre : List (String × PyVal))
    (rest : List (String × PyVal)) (pix pix' : List PyVal)
    (hpre : applyPixels pix pre = (pix', none)) :
    applyPixels pix (pre ++ rest) = applyPixels pix' rest := by
  induction pre generalizing pix with
  | nil =>
    obtain rfl : pix = pix' := congrArg Prod.fst hpre
    rfl
  | cons p t ih =>
    obtain ⟨k, v⟩ := p
    rw [applyPixels] at hpre
    rw [List.cons_append, applyPixels]
    cases hc : convert_color_to_num v with
    | error e =>
      simp only [hc] at hpre
      exact Option.noConfusion (congrArg Prod.snd hpre)
    | ok c =>
      simp only [hc] at hpre ⊢
      cases hk : pyInt10 k with
      | none =>
        simp only [hk] at hpre
        exact Option.noConfusion (congrArg Prod.snd hpre)
      | some i =>
        simp only [hk] at hpre ⊢
        cases hs : pySetItem pix i c with
        | none =>
          simp only [hs] at hpre
          exact Option.noConfusion (congrArg Prod.snd hpre)
        | some pix2 =>
          simp only [hs] at hpre ⊢
          exact ih pix2 hpre

/-- C6: when the pixel map splits as `pre ++ (key, v) :: post` where every
key of `pre` applies cleanly, `v` converts to a color, and `key` parses to
an index that is out of range for the buffer, the `/pixels` POST aborts at
`key`: the response is the index error naming exactly that key, the strip's
buffer holds precisely the writes of `pre` (earlier keys remain applied),
and nothing of `post` is applied — fail-fast-partial, not all-or-nothing. -/
theorem c6_set_pixels_fail_fast_partial (ctx : Ctx) (sid : String)
    (req kvs pre post : List (String × PyVal)) (key : String) (v c : PyVal)
    (st : Strip) (pix' : List PyVal) (i : Int)
    (hst : alookup ctx.strips sid = some st)
    (hmode : alookup ctx.modes sid = some "pixels")
    (hpix : alookup req "pixels" = some (.dict kvs))
    (hblank : alookup req "blank_pixels" = none)
    (hsplit : kvs = pre ++ (key, v) :: post)
    (hpre : applyPixels st.pixels pre = (pix', none))
    (hv : convert_color_to_num v = .ok c)
    (hk : pyInt10 key = some i)
    (hoob : pySetItem pix' i c = none) :
    pixels_post ctx sid (.obj req) =
      ({ ctx with strips := aset ctx.strips sid { st with pixels := pix' } },
        .errIndexKey key) := by
  have hval : validate_request_data (.obj req) ["pixels"] = .ok req := by
    have h1 := List.elem_iff.mp (contains_akeys_of_alookup _ _ _ hpix)
    dsimp only [validate_request_data]
    simp [List.filter_cons, h1]
  have hloop : applyPixels st.pixels kvs = (pix', some (.errIndexKey key)) := by
    rw [hsplit, applyPixels_append pre _ _ _ hpre, applyPixels]
    simp only [hv, hk, hoob]
  unfold pixels_post
  simp only [hst, Option.isSome_some, Bool.true_eq_false, if_false, hval,
    hpix, hblank, hmode, if_true, hloop]

/-- C6 witness: on a 2-pixel strip, the map
`{"0": "0x01", "40": "0x02", "1": "0x03"}` fails at key `"40"` with pixel 0
already written and pixel 1 untouched. -/
theorem c6_set_pixels_fail_fast_partial_witness :
    pixels_post
      { modes := [("D6", "pixels")], current_animations := [],
        strips := [("D6", { pixels := [.int 9, .int 9], auto_write := true })],
        old_auto_writes := [], animations := [], animation_strip_map := [],
        mode := none }
      "D6" (.obj [("pixels", .dict [("0", .str "0x01"), ("40", .str "0x02"), ("1", .str "0x03")])]) =
      ({ modes := [("D6", "pixels")], current_animations := [],
          strips := [("D6", { pixels := [.int 1, .int 9], auto_write := true })],
          old_auto_writes := [], animations := [], animation_strip_map := [],
          mode := none },
        .errIndexKey "40") := by
  have h := c6_set_pixels_fail_fast_partial
    { modes := [("D6", "pixels")], current_animations := [],
      strips := [("D6", { pixels := [.int 9, .int 9], auto_write := true })],
      old_auto_writes := [], animations := [], animation_strip_map := [],
      mode := none }
    "D6"
    [("pixels", .dict [("0", .str "0x01"), ("40", .str "0x02"), ("1", .str "0x03")])]
    [("0", .str "0x01"), ("40", .str "0x02"), ("1", .str "0x03")]
    [("0", .str "0x01")] [("1", .str "0x03")] "40" (.str "0x02") (.int 2)
    { pixels := [.int 9, .int 9], auto_write := true }
    [.int 1, .int 9] 40
    rfl rfl rfl rfl rfl rfl rfl rfl rfl
  exact h

/-! ### C9: the reachable-state invariant behind the scheduler -/

/-- C9: in every state reachable through the dispatcher's operations, a
strip whose recorded mode is `animation` has a current animation recorded,
and that animation id is registered; consequently one `animate` tick
performs all its dictionary lookups successfully (no `KeyError`), advancing
every strip in animation mode. -/
theorem c9_animation_mode_invariant (c : Ctx) (hr : Reachable c) :
    (∀ s, alookup c.modes s = some "animation" →
      ∃ a, alookup c.current_animations s = some a ∧
        (alookup c.animations a).isSome = true) ∧
    ∃ c', animate c = .ok c' := by
  have hinv := reachable_inv hr
  refine ⟨hinv.2, ?_⟩
  apply animateGo_ok
  intro p hp hpm
  obtain ⟨s, m⟩ := p
  have hl : alookup c.modes s = some "animation" := by
    have := alookup_eq_of_mem_nodup c.modes s m hp hinv.1
    rw [← hpm]
    exact this
  exact hinv.2 s hl

/-- NeoPixel constructor outcome used in the C9 witness scenario. -/
def c9mk : MkNeopixel :=
  fun _ _ _ => .ok { pixels := [.int 0, .int 0], auto_write := true }

/-- Animation constructors used in the C9 witness scenario. -/
def c9ctors : String → AnimCtor := fun _ => fun _ _ => .ok { props := [], ticks := 0 }

/-- C9 witness scenario: register `D6`. -/
def c9s1 : Ctx :=
  (init_neopixels initialCtx (fun _ => true) c9mk
    (.obj [("pin", .str "D6"), ("pixel_count", .int 2)])).1

/-- C9 witness scenario: init animation `a1` on `D6`. -/
def c9s2 : Ctx :=
  (init_animation c9s1 c9ctors
    (.obj [("strip_id", .str "D6"), ("animation_id", .str "a1"),
      ("animation", .str "blink"), ("kwargs", .dict [])])).1

/-- C9 witness scenario: start `a1` — `D6` is now in animation mode. -/
def c9s3 : Ctx := (start_animation c9s2 "a1").1

/-- C9 witness: the tick succeeds on the concrete reachable state with an
animation running. -/
theorem c9_animation_mode_invariant_witness : ∃ c', animate c9s3 = .ok c' :=
  (c9_animation_mode_invariant c9s3
    (Reachable.step
      (Reachable.step
        (Reachable.step Reachable.init
          (Step.neopixels initialCtx (fun _ => true) c9mk
            (.obj [("pin", .str "D6"), ("pixel_count", .int 2)])))
        (Step.initAnim c9s1 c9ctors
          (.obj [("strip_id", .str "D6"), ("animation_id", .str "a1"),
            ("animation", .str "blink"), ("kwargs", .dict [])])))
      (Step.startAnim c9s2 "a1"))).2

/-! ### C10: falsy converted colors are dropped from the constructor call -/

/-- A context with one registered `D6` strip for the C10 scenarios. -/
def c10ctx : Ctx :=
  { modes := [("D6", "pixels")], current_animations := [],
    strips := [("D6", { pixels := [.int 0], auto_write := true })],
    old_auto_writes := [], animations := [], animation_strip_map := [],
    mode := none }

/-- C10 constructors: the constructed animation records the keyword
arguments it received as its attribute set, so the result shows exactly
what was passed. -/
def c10ctors : String → AnimCtor := fun _ => fun _ kw => .ok { props := kw, ticks := 0 }

/-- C10 request whose kwargs carry `color` decoding to packed `0`. -/
def c10bodyZero : ReqBody :=
  .obj [("strip_id", .str "D6"), ("animation_id", .str "a1"),
    ("animation", .str "blink"),
    ("kwargs", .dict [("speed", .int 1), ("color", .int 0)])]

/-- C10 request with no `color` kwarg at all. -/
def c10bodyNone : ReqBody :=
  .obj [("strip_id", .str "D6"), ("animation_id", .str "a1"),
    ("animation", .str "blink"), ("kwargs", .dict [("speed", .int 1)])]

/-- C10 request whose kwargs carry `color = "#000000"`. -/
def c10bodyHash : ReqBody :=
  .obj [("strip_id", .str "D6"), ("animation_id", .str "a1"),
    ("animation", .str "blink"),
    ("kwargs", .dict [("speed", .int 1), ("color", .str "#000000")])]

/-- C10: a `color` kwarg decoding to packed `0` is deleted from the kwargs
and, being falsy, is not re-added: the handler behaves exactly as if no
color had been supplied (first two conjuncts; the constructed animation
records only `speed`).  BUT the claim's example `"#000000"` does not decode
to `0` at all: because of the `#`-rewrite bug (C4), `convert_color_to_num`
raises, the exception escapes `init_animation`, and nothing is constructed
(last two conjuncts) — the code diverges from the documented `#` color
support. -/
theorem c10_zero_color_dropped :
    (init_animation c10ctx c10ctors c10bodyZero =
      init_animation c10ctx c10ctors c10bodyNone) ∧
    ((alookup (init_animation c10ctx c10ctors c10bodyZero).1.animations
        "a1").map Anim.props = some [("speed", .int 1)]) ∧
    (convert_color_to_num (.str "#000000") = .error (.intParse "#000000")) ∧
    (init_animation c10ctx c10ctors c10bodyHash =
      (c10ctx, .crash "ValueError: color")) :=
  ⟨rfl, rfl, rfl, rfl⟩
